import Mathlib

/-! Verification development for the domain-watchlist chat bot (`bot.py`).

The bot keeps a persisted record `{chat_id, domains}`, normalizes
user-supplied domain strings, periodically queries a remote status API for
each watched domain and reports the results into one chat message.

This file is a shallow embedding of the pure logic of `bot.py`:

* strings are modelled at the `List Char` level with faithful models of the
  Python primitives the code uses (`str.lower`, `str.replace` with an empty
  replacement, `str.strip`, `str.split`);
* the persisted JSON file is modelled by a `FileState` inductive covering
  the cases `load_data` can see (absent, IO error, undecodable JSON, JSON
  that is not an object, a JSON object);
* the remote HTTP interaction inside `check_domain_status` is modelled by a
  `RemoteOutcome` inductive (request raised / response with a success or
  failure status and a parseable or unparseable body); the function also
  reports whether network I/O was attempted;
* `periodic_check` is modelled as a function from the loaded record and a
  per-domain outcome oracle to the list of outbound messages and the list
  of domains passed to the checker.

Logging is side-effect-only in the source and is not modelled.
-/

namespace DomainBot

/-- Python truthiness of an optional string (`os.getenv` result):
`None` and `""` are falsy. -/
def pyTruthyStr : Option String → Bool
  | none => false
  | some s => !s.isEmpty

/-- ASCII lower-casing of one character, as Python `str.lower` acts on the
ASCII range (the inputs of interest are ASCII domain strings). -/
def lowerChar (c : Char) : Char :=
  if 'A' ≤ c ∧ c ≤ 'Z' then Char.ofNat (c.toNat + 32) else c

/-- ASCII upper-casing of one character, as Python `str.upper` acts on the
ASCII range. -/
def upperChar (c : Char) : Char :=
  if 'a' ≤ c ∧ c ≤ 'z' then Char.ofNat (c.toNat - 32) else c

/-- `true` iff `pat` is a prefix of `s`. -/
def startsWithCh : List Char → List Char → Bool
  | [], _ => true
  | _ :: _, [] => false
  | p :: ps, c :: cs => p == c && startsWithCh ps cs

/-- Fuel-driven model of Python `s.replace(pat, "")`: scan left to right,
removing non-overlapping occurrences of `pat` and resuming the scan after
each removed occurrence.  One unit of fuel is spent per step and every step
consumes at least one character, so `fuel = s.length` always suffices; the
fuel-0 branch is unreachable for those calls. -/
def removeAllFuel (pat : List Char) : Nat → List Char → List Char
  | 0, s => s
  | _ + 1, [] => []
  | fuel + 1, c :: cs =>
    if startsWithCh pat (c :: cs) && !pat.isEmpty then
      removeAllFuel pat fuel ((c :: cs).drop pat.length)
    else
      c :: removeAllFuel pat fuel cs

/-- Python `s.replace(pat, "")` for a non-empty `pat`. -/
def removeAll (pat s : List Char) : List Char :=
  removeAllFuel pat s.length s

/-- Drop the longest run of characters satisfying `p` from the front
(the front half of Python `str.strip`). -/
def dropWhileList (p : Char → Bool) : List Char → List Char
  | [] => []
  | c :: cs => if p c then dropWhileList p cs else c :: cs

/-- Drop the longest run of characters satisfying `p` from the back
(the back half of Python `str.strip`). -/
def dropRightWhileList (p : Char → Bool) : List Char → List Char
  | [] => []
  | c :: cs =>
    match dropRightWhileList p cs with
    | [] => if p c then [] else [c]
    | r => c :: r

/-- Python `s.strip(chars)` restricted to a character predicate: removes the
matching run from both ends. -/
def stripChar (p : Char → Bool) (s : List Char) : List Char :=
  dropRightWhileList p (dropWhileList p s)

/-- Python whitespace test for `str.split()` / `str.strip()` (ASCII range). -/
def isWsChar (c : Char) : Bool :=
  c == ' ' || c == '\t' || c == '\n' || c == '\r' || c == '\x0b' || c == '\x0c'

/-- Accumulator-driven model of Python `str.split()` (split on whitespace
runs, no empty fields). `acc` holds the current word reversed. -/
def splitWsAux : List Char → List Char → List (List Char)
  | [], acc => if acc.isEmpty then [] else [acc.reverse]
  | c :: cs, acc =>
    if isWsChar c then
      if acc.isEmpty then splitWsAux cs [] else acc.reverse :: splitWsAux cs []
    else
      splitWsAux cs (c :: acc)

/-- Python `text.split()` on a `String`. -/
def pySplitWs (s : String) : List String :=
  (splitWsAux s.toList []).map String.mk

/-- Python `s.strip()` (whitespace strip) on a `String`. -/
def pyStripWs (s : String) : String :=
  String.mk (stripChar isWsChar s.toList)

/-- The scheme `"https://"` as a character list. -/
def httpsPat : List Char := "https://".toList

/-- The scheme `"http://"` as a character list. -/
def httpPat : List Char := "http://".toList

/-- The per-token cleanup applied inside `get_domains_from_message`
(`bot.py` line 77): `d.lower().replace("https://", "").replace("http://", "").strip("/")`.
The spec calls this function `normalize`. -/
def normalize (s : String) : String :=
  String.mk (stripChar (fun c => c == '/')
    (removeAll httpPat (removeAll httpsPat (s.toList.map lowerChar))))

/-- `get_domains_from_message(text)` (`bot.py` lines 71-80): drop the
command word, then normalize each remaining whitespace-separated token,
keeping a raw token iff `d.strip()` is truthy (the filter tests the raw
token, not the normalized one). -/
def get_domains_from_message (text : String) : List String :=
  let tokens := pySplitWs text
  if tokens.length < 2 then []
  else ((tokens.drop 1).filter (fun d => !(pyStripWs d).isEmpty)).map normalize

/-- Python ASCII upper-casing of a string (`str.upper`), used on the
remote payload's `status` field. -/
def upperStr (s : String) : String :=
  String.mk (s.toList.map upperChar)

/-- The dictionary shapes `bot.py` passes around for API results and JSON
bodies: each field is `some v` iff the corresponding key is present. -/
structure ApiDict where
  error : Option String := none
  status : Option String := none
  ip : Option String := none
  domain : Option String := none
deriving DecidableEq, Repr

/-- The error dictionary `check_domain_status` builds when the access token
is missing (`bot.py` line 44). -/
def tokenErrDict : ApiDict :=
  { error := some "Indiwtf API token is not configured." }

/-- One remote interaction as `check_domain_status` can observe it:
either `requests.get` itself raised (timeout, connection error), carrying
the exception text, or a response arrived with a success/failure HTTP
status, a body that parses to a JSON dict or not, and the text of the
exception the `try` block raises for it (`raise_for_status` for a failure
status, the JSON decoding error for an unparseable body; unused when the
body parses on a success status). -/
inductive RemoteOutcome where
  | noResponse (excMsg : String)
  | httpResponse (success : Bool) (body : Option ApiDict) (excMsg : String)
deriving DecidableEq, Repr

/-- `check_domain_status(domain)` (`bot.py` lines 43-54), as a function of
the configured token and the remote outcome.  Returns the result dict
together with a flag recording whether network I/O was attempted.
Paths, mirroring the source:

* falsy token: return the token-error dict before any network I/O;
* `requests.get` raised: `response` is unbound, so the inner
  `response.json()` raises `NameError`, the bare `except` catches it and
  `{"error": str(e)}` is returned;
* response with success status and parseable body: the body is returned;
* response with success status and unparseable body: `response.json()`
  raises, the retry in the handler raises again, `{"error": str(e)}`;
* response with failure status and parseable body: `raise_for_status`
  raises, the handler returns `response.json()` — the body as-is;
* response with failure status and unparseable body: `{"error": str(e)}`. -/
def check_domain_status (token : Option String) (domain : String)
    (o : RemoteOutcome) : ApiDict × Bool :=
  if pyTruthyStr token = false then (tokenErrDict, false)
  else
    match o with
    | .noResponse excMsg => ({ error := some excMsg }, true)
    | .httpResponse _ (some body) _ => (body, true)
    | .httpResponse _ none excMsg => ({ error := some excMsg }, true)

/-- `format_status_message(result, domain_to_check)` (`bot.py` lines 57-69). -/
def format_status_message (result : ApiDict) (domain_to_check : String) : String :=
  match result.error with
  | some e => "❌ **Error checking `" ++ domain_to_check ++ "`:**\n" ++ e
  | none =>
    let status := upperStr (result.status.getD "unknown")
    let ip := result.ip.getD "N/A"
    let domain := result.domain.getD domain_to_check
    let emoji := if status = "BLOCKED" then "🔴" else "✅"
    let statusText := if status = "BLOCKED" then "is *BLOCKED*" else "is *OK*"
    emoji ++ " `https://" ++ domain ++ "/` " ++ statusText ++ " (IP: `" ++ ip ++ "`)"

/-- The persisted watchlist record: `{"chat_id": ..., "domains": [...]}`. -/
structure Record where
  chat_id : Option Int := none
  domains : List String := []
deriving DecidableEq, Repr

/-- The default record `load_data` falls back to. -/
def defaultRecord : Record := { chat_id := none, domains := [] }

/-- The states of the persisted file as seen by `load_data`: absent,
unreadable (an `IOError` while opening/reading), content that does not
decode as JSON, content that decodes to a non-object JSON value
(e.g. `42` or `[1]`), or a JSON object whose two known keys may each be
present or absent. -/
inductive FileState where
  | absent
  | ioError (msg : String)
  | jsonDecodeError (msg : String)
  | jsonNonObject
  | jsonObject (chat_id : Option (Option Int)) (domains : Option (List String))
deriving DecidableEq, Repr

/-- `load_data()` (`bot.py` lines 24-33) as a function of the file state.
`Except.error` marks an uncaught Python exception escaping to the caller.
Only `json.JSONDecodeError` and `IOError` are caught, so a JSON value that
is not an object reaches `data.setdefault(...)` and raises an uncaught
`AttributeError`. -/
def load_data : FileState → Except String Record
  | .absent => .ok defaultRecord
  | .ioError _ => .ok defaultRecord
  | .jsonDecodeError _ => .ok defaultRecord
  | .jsonNonObject => .error "AttributeError: object has no attribute setdefault"
  | .jsonObject c d => .ok { chat_id := c.getD none, domains := d.getD [] }

/-- Lexicographic code-point order on character lists, as Python compares
strings: `true` iff `x ≤ y`. -/
def lexLeCh : List Char → List Char → Bool
  | [], _ => true
  | _ :: _, [] => false
  | a :: as, b :: bs =>
    if a.toNat < b.toNat then true
    else if a.toNat = b.toNat then lexLeCh as bs else false

/-- Python string comparison `a <= b` (lexicographic by code point). -/
def strLeB (a b : String) : Bool := lexLeCh a.toList b.toList

/-- `strLeB` as a relation, used as the sort order. -/
abbrev strLe (a b : String) : Prop := strLeB a b = true

/-- Python `sorted(list(set(xs)))` on strings: the distinct elements in
lexicographic (code-point) order.  `List.dedup` keeps one copy of each
element and the sort then determines the list uniquely, so this is
extensionally the Python expression. -/
def sortedDedup (xs : List String) : List String :=
  List.insertionSort strLe xs.dedup

/-- `save_data(data)` (`bot.py` lines 35-41): the persisted record (and the
in-place mutation of the passed dict) replaces `domains` with
`sorted(list(set(domains)))`.  A write `IOError` is logged and drops the
write; the pure transform below is the persisted/mutated shape on the
success path, which is what the claims are about. -/
def save_data (r : Record) : Record :=
  { r with domains := sortedDedup r.domains }

/-- What one run of `periodic_check` emits: the outbound messages
`(chat_id, text)` in order, and the domains passed to
`check_domain_status` in order. -/
structure CycleOut where
  sent : List (Int × String)
  checked : List String
deriving DecidableEq, Repr

/-- Header line of the cycle report (`bot.py` line 95). -/
def reportHeader : String := "🔔 **Domain Status Report**\n"

/-- The empty-watchlist notice (`bot.py` line 92). -/
def emptyWatchlistMsg : String := "Watchlist is empty. Add domains with `/add`."

/-- `periodic_check(context)` (`bot.py` lines 83-102) as a function of the
loaded record (the source loads it with `load_data()` first), the
configured token and a per-domain remote-outcome oracle.  Python's
`if not chat_id` treats both `None` and `0` as unconfigured; with a chat
configured and a non-empty list, every domain is checked in stored order
and exactly one message is sent: the header plus one formatted line per
domain, joined by newlines. -/
def periodic_check (token : Option String) (oracle : String → RemoteOutcome)
    (data : Record) : CycleOut :=
  match data.chat_id with
  | none => { sent := [], checked := [] }
  | some cid =>
    if cid = 0 then { sent := [], checked := [] }
    else if data.domains.isEmpty then
      { sent := [(cid, emptyWatchlistMsg)], checked := [] }
    else
      { sent := [(cid, String.intercalate "\n" (reportHeader ::
          data.domains.map (fun d =>
            format_status_message (check_domain_status token d (oracle d)).1 d)))],
        checked := data.domains }

/-- Result of one `/add` command: the persisted record afterwards and the
reply text. -/
structure AddOut where
  stored : Record
  reply : String
deriving DecidableEq, Repr

/-- Usage reply of `/add` with no domains parsed (`bot.py` line 139). -/
def addUsageMsg : String :=
  "Usage: `/add domain1.com ...`\nYou can also paste a list of domains on new lines after the command."

/-- Header line of the `/add` reply (`bot.py` line 146). -/
def addReportHeader : String := "**📝 Bulk Add Report**\n"

/-- The `✅ Added ...` reply line of `/add`. -/
def addedLine (n : Nat) : String :=
  "✅ Added *" ++ toString n ++ "* new domains."

/-- The `☑️ Skipped ...` reply line of `/add`. -/
def skippedLine (n : Nat) : String :=
  "☑️ Skipped *" ++ toString n ++ "* domains (already on list)."

/-- `add_command` (`bot.py` lines 136-153) as a function of the message
text and the loaded record (the source loads it with `load_data()`):
partitions the parsed domains against the current list via Python sets,
extends and saves only when something is new, and reports added/skipped
counts. -/
def add_command (text : String) (stored : Record) : AddOut :=
  let ds := get_domains_from_message text
  if ds.isEmpty then { stored := stored, reply := addUsageMsg }
  else
    let newly := sortedDedup (ds.filter (fun d => !decide (d ∈ stored.domains)))
    let already := sortedDedup (ds.filter (fun d => decide (d ∈ stored.domains)))
    let stored1 := if newly.isEmpty then stored
      else save_data { stored with domains := stored.domains ++ newly }
    let parts := [addReportHeader]
      ++ (if newly.isEmpty then [] else [addedLine newly.length])
      ++ (if already.isEmpty then [] else [skippedLine already.length])
    { stored := stored1, reply := String.intercalate "\n" parts }

/-- The startup credential gate of `main()` (`bot.py` lines 198-202):
returns `true` iff startup proceeds past the gate.  `main` logs a critical
message and returns (the bot never starts) when either `TELEGRAM_TOKEN` or
`INDIWTF_TOKEN` is unset or empty. -/
def main (telegram_token indiwtf_token : Option String) : Bool :=
  pyTruthyStr telegram_token && pyTruthyStr indiwtf_token

/-- Concrete two-domain watchlist used to instantiate the cycle claims. -/
def watchAB : Record := { chat_id := some 5, domains := ["a.com", "b.com"] }

/-- Concrete remote behavior: `a.com` times out, `b.com` answers with a
`blocked` payload. -/
def oracleAB (d : String) : RemoteOutcome :=
  if d = "a.com" then .noResponse "HTTPSConnectionPool: Read timed out."
  else .httpResponse true
    (some { status := some "blocked", ip := some "1.2.3.4", domain := some "b.com" }) ""

-- Order lemmas for the sort relation

lemma lexLeCh_cons_iff {a b : Char} {as bs : List Char} :
    lexLeCh (a :: as) (b :: bs) = true ↔
      a.toNat < b.toNat ∨ (a.toNat = b.toNat ∧ lexLeCh as bs = true) := by
  simp only [lexLeCh]
  split_ifs with h1 h2
  · simp [h1]
  · simp [h1, h2]
  · simp [h1, h2]

lemma lexLeCh_total (x y : List Char) : lexLeCh x y = true ∨ lexLeCh y x = true := by
  induction x generalizing y with
  | nil => left; rfl
  | cons a as ih =>
    cases y with
    | nil => right; rfl
    | cons b bs =>
      rcases Nat.lt_trichotomy a.toNat b.toNat with h | h | h
      · left; rw [lexLeCh_cons_iff]; left; exact h
      · rcases ih bs with h' | h'
        · left; rw [lexLeCh_cons_iff]; right; exact ⟨h, h'⟩
        · right; rw [lexLeCh_cons_iff]; right; exact ⟨h.symm, h'⟩
      · right; rw [lexLeCh_cons_iff]; left; exact h

lemma lexLeCh_trans {x y z : List Char} (h1 : lexLeCh x y = true)
    (h2 : lexLeCh y z = true) : lexLeCh x z = true := by
  induction x generalizing y z with
  | nil => rfl
  | cons a as ih =>
    cases y with
    | nil => simp [lexLeCh] at h1
    | cons b bs =>
      cases z with
      | nil => simp [lexLeCh] at h2
      | cons c cs =>
        rw [lexLeCh_cons_iff] at h1 h2 ⊢
        rcases h1 with h1 | ⟨h1e, h1r⟩ <;> rcases h2 with h2 | ⟨h2e, h2r⟩
        · left; omega
        · left; omega
        · left; omega
        · right; exact ⟨by omega, ih h1r h2r⟩

instance : IsTotal String strLe := ⟨fun a b => lexLeCh_total a.toList b.toList⟩

instance : IsTrans String strLe := ⟨fun _ _ _ h1 h2 => lexLeCh_trans h1 h2⟩

-- Lemmas about sortedDedup

lemma mem_sortedDedup {a : String} {xs : List String} :
    a ∈ sortedDedup xs ↔ a ∈ xs := by
  unfold sortedDedup
  rw [(List.perm_insertionSort strLe xs.dedup).mem_iff, List.mem_dedup]

lemma sortedDedup_eq_nil {xs : List String} : sortedDedup xs = [] ↔ xs = [] := by
  constructor
  · intro h
    rw [List.eq_nil_iff_forall_not_mem]
    intro a ha
    have : a ∈ sortedDedup xs := mem_sortedDedup.mpr ha
    simp [h] at this
  · intro h; subst h; rfl

lemma nodup_sortedDedup (xs : List String) : (sortedDedup xs).Nodup :=
  ((List.perm_insertionSort strLe xs.dedup).nodup_iff).mpr (List.nodup_dedup xs)

lemma sorted_sortedDedup (xs : List String) : List.Sorted strLe (sortedDedup xs) :=
  List.sorted_insertionSort strLe xs.dedup

-- Lemmas about the strip primitives

lemma head?_dropWhileList {p : Char → Bool} {l : List Char} {a : Char}
    (h : (dropWhileList p l).head? = some a) : p a = false := by
  induction l with
  | nil => simp [dropWhileList] at h
  | cons c cs ih =>
    by_cases hc : p c
    · exact ih (by simpa [dropWhileList, hc] using h)
    · simp only [dropWhileList, if_neg hc, List.head?_cons, Option.some.injEq] at h
      subst h; exact Bool.eq_false_iff.mpr hc

lemma head?_dropRightWhileList {p : Char → Bool} {l : List Char} {a : Char}
    (h : (dropRightWhileList p l).head? = some a) : l.head? = some a := by
  induction l with
  | nil => simp [dropRightWhileList] at h
  | cons c cs _ =>
    simp only [dropRightWhileList] at h
    cases hr : dropRightWhileList p cs with
    | nil =>
      rw [hr] at h
      by_cases hc : p c
      · simp [hc] at h
      · simpa [hc] using h
    | cons x xs =>
      rw [hr] at h
      simpa using h

lemma getLast?_dropRightWhileList {p : Char → Bool} {l : List Char} {a : Char}
    (h : (dropRightWhileList p l).getLast? = some a) : p a = false := by
  induction l with
  | nil => simp [dropRightWhileList] at h
  | cons c cs ih =>
    simp only [dropRightWhileList] at h
    cases hr : dropRightWhileList p cs with
    | nil =>
      rw [hr] at h
      by_cases hc : p c
      · simp [hc] at h
      · simp only [if_neg hc, List.getLast?_singleton, Option.some.injEq] at h
        subst h; exact Bool.eq_false_iff.mpr hc
    | cons x xs =>
      rw [hr] at h
      rw [List.getLast?_cons_cons] at h
      exact ih (hr ▸ h)

lemma dropWhileList_eq_self {p : Char → Bool} {l : List Char}
    (h : ∀ a, l.head? = some a → p a = false) : dropWhileList p l = l := by
  cases l with
  | nil => rfl
  | cons c cs => simp [dropWhileList, h c rfl]

lemma dropRightWhileList_eq_self {p : Char → Bool} {l : List Char}
    (h : ∀ a, l.getLast? = some a → p a = false) : dropRightWhileList p l = l := by
  induction l with
  | nil => rfl
  | cons c cs ih =>
    cases hcs : cs with
    | nil =>
      subst hcs
      have hc := h c (by simp)
      simp [dropRightWhileList, hc]
    | cons x xs =>
      subst hcs
      have hlast : ∀ a, (x :: xs).getLast? = some a → p a = false := by
        intro a ha
        refine h a ?_
        rw [List.getLast?_cons_cons]
        exact ha
      have h2 : dropRightWhileList p (x :: xs) = x :: xs := ih hlast
      show (match dropRightWhileList p (x :: xs) with
            | [] => if p c = true then [] else [c]
            | r => c :: r) = c :: x :: xs
      rw [h2]

lemma stripChar_idem (p : Char → Bool) (s : List Char) :
    stripChar p (stripChar p s) = stripChar p s := by
  unfold stripChar
  rw [dropWhileList_eq_self, dropRightWhileList_eq_self]
  · intro a ha
    exact getLast?_dropRightWhileList ha
  · intro a ha
    exact head?_dropWhileList (head?_dropRightWhileList ha)

lemma mem_add_command_stored {text : String} {stored : Record} {d : String}
    (hd : d ∈ get_domains_from_message text) :
    d ∈ (add_command text stored).stored.domains := by
  have hne : get_domains_from_message text ≠ [] := by
    intro h; rw [h] at hd; exact absurd hd (List.not_mem_nil d)
  have hdsE : (get_domains_from_message text).isEmpty = false :=
    List.isEmpty_eq_false.mpr hne
  simp only [add_command, hdsE, Bool.false_eq_true, if_false]
  by_cases hN : (sortedDedup ((get_domains_from_message text).filter
      (fun x => !decide (x ∈ stored.domains)))).isEmpty
  · rw [if_pos hN]
    have hnil : (get_domains_from_message text).filter
        (fun x => !decide (x ∈ stored.domains)) = [] :=
      sortedDedup_eq_nil.mp (List.isEmpty_iff.mp hN)
    have := (List.filter_eq_nil_iff.mp hnil) d hd
    simpa using this
  · rw [if_neg hN]
    show d ∈ sortedDedup (stored.domains ++ _)
    rw [mem_sortedDedup, List.mem_append]
    by_cases hmem : d ∈ stored.domains
    · left; exact hmem
    · right
      rw [mem_sortedDedup]
      exact List.mem_filter.mpr ⟨hd, by simp [hmem]⟩

-- Claim theorems

/-- Claim C1, counterexample: the startup gate (`bot.py` lines 200-202)
treats a missing remote-API credential (`INDIWTF_TOKEN`) as fatal exactly
like the messaging-gateway credential, contradicting the claim that only
the gateway credential is fatal: with the gateway token configured and the
remote token absent (or empty), `main` does not start the bot, so the bot
is not reachable for list management. -/
theorem C1_counterexample :
    main (some "telegram-token") none = false
    ∧ main (some "telegram-token") (some "") = false
    ∧ main (some "telegram-token") (some "indiwtf-token") = true := by decide

/-- Claim C1, amended: when the remote-API token is not configured,
`check_domain_status` returns the per-domain token-error result
immediately, attempting no network I/O, whatever the remote would have
answered; but at startup a missing remote-API credential is fatal exactly
like the messaging-gateway credential — `main` refuses to start when
either is unset, and startup proceeding implies the remote token is set. -/
theorem C1_amended_thm :
    (∀ (token : Option String) (d : String) (o : RemoteOutcome),
        pyTruthyStr token = false →
        check_domain_status token d o = (tokenErrDict, false))
    ∧ (∀ tg : Option String, main tg none = false)
    ∧ (∀ iw : Option String, main none iw = false)
    ∧ (∀ tg iw : Option String, main tg iw = true → pyTruthyStr iw = true) := by
  refine ⟨?_, ?_, ?_, ?_⟩
  · intro token d o h
    simp [check_domain_status, h]
  · intro tg; simp [main, pyTruthyStr]
  · intro iw; simp [main, pyTruthyStr]
  · intro tg iw h
    exact (Bool.and_eq_true _ _ |>.mp h).2

/-- Witness for C1: with no token configured the checker yields the
token-error dict with no network attempt even though the remote would
have timed out, and `main` with only the gateway credential does not
start. -/
theorem C1_amended_witness :
    pyTruthyStr (none : Option String) = false
    ∧ check_domain_status none "a.com" (.noResponse "timed out") = (tokenErrDict, false)
    ∧ main (some "telegram-token") none = false :=
  ⟨by decide, C1_amended_thm.1 none "a.com" (.noResponse "timed out") (by decide),
    C1_amended_thm.2.1 (some "telegram-token")⟩

/-- Claim C2 (code bug): `normalize` is not idempotent.  On
`"httphttp://s://x"` the `"https://"` pass finds nothing, then the
`"http://"` pass removes the embedded occurrence and concatenates
`"http"` with `"s://x"`, manufacturing a fresh `"https://"` it never
rescans; one application yields `"https://x"`, a second yields `"x"`.
This also contradicts the source's own comment (`bot.py` line 75) that
the stored values are clean of schemes. -/
theorem C2_bug_eval :
    normalize "httphttp://s://x" = "https://x"
    ∧ normalize (normalize "httphttp://s://x") = "x"
    ∧ (normalize (normalize "httphttp://s://x") == normalize "httphttp://s://x") = false := by
  decide

/-- Claim C3, counterexample: a failure path whose result has no populated
error field.  On a non-success HTTP response whose body parses as JSON
(here an HTTP 500 with body `{"status": "ok"}`), the handler returns
`response.json()` as-is, so the failing check's result carries no `error`
key. -/
theorem C3_counterexample :
    (check_domain_status (some "tok") "a.com"
        (.httpResponse false (some { status := some "ok" }) "500 Server Error")).1.error = none
    ∧ (check_domain_status (some "tok") "a.com"
        (.httpResponse false (some { status := some "ok" }) "500 Server Error")).1
      = { status := some "ok" } := by decide

/-- Claim C3, amended: `check_domain_status` resolves every modelled
outcome to a result dict (no uncaught-exception path), and every failure
path yields a populated `error` field EXCEPT when the response body parses
as JSON, in which case the body is returned as-is — success or failure
status alike — and may lack an `error` field. -/
theorem C3_amended_thm (token : Option String) (d : String) (o : RemoteOutcome) :
    (check_domain_status token d o).1.error.isSome = true
    ∨ ∃ success body excMsg, o = .httpResponse success (some body) excMsg
        ∧ (check_domain_status token d o).1 = body ∧ pyTruthyStr token = true := by
  by_cases h : pyTruthyStr token = false
  · left; simp [check_domain_status, h, tokenErrDict]
  · have h' : pyTruthyStr token = true := by
      cases hb : pyTruthyStr token
      · exact absurd hb h
      · rfl
    cases o with
    | noResponse excMsg => left; simp [check_domain_status, h']
    | httpResponse success body excMsg =>
      cases body with
      | none => left; simp [check_domain_status, h']
      | some b =>
        right
        exact ⟨success, b, excMsg, rfl, by simp [check_domain_status, h'], h'⟩

/-- Claim C4, counterexample: persisted content that is valid JSON but not
an object (e.g. the file contains `42`) passes `json.load` and then raises
an uncaught `AttributeError` at `data.setdefault(...)` — only
`json.JSONDecodeError` and `IOError` are caught — so `load_data` does
raise on this corrupt persisted state instead of returning the default. -/
theorem C4_counterexample :
    load_data .jsonNonObject
      = .error "AttributeError: object has no attribute setdefault" := rfl

/-- Claim C4, amended: `load_data` returns the default empty record
(`chat_id = None`, `domains = []`) without raising when the persisted file
is absent, unreadable (`IOError`), or not decodable as JSON; content that
decodes to a non-object JSON value, however, escapes the `except` clause
and raises. -/
theorem C4_amended_thm (msg msg' : String) :
    load_data .absent = .ok defaultRecord
    ∧ load_data (.ioError msg) = .ok defaultRecord
    ∧ load_data (.jsonDecodeError msg') = .ok defaultRecord :=
  ⟨rfl, rfl, rfl⟩

/-- Claim C5, counterexample: the normalizer does not strip only a leading
scheme leaving other text in place — Python `str.replace` removes every
occurrence — and it does not trim surrounding whitespace (`strip("/")`
strips slashes only). -/
theorem C5_counterexample :
    normalize "a.com/https://b" = "a.com/b"
    ∧ (normalize "a.com/https://b" == "a.com/https://b") = false
    ∧ normalize " a.com " = " a.com "
    ∧ (normalize " a.com " == "a.com") = false := by decide

/-- Claim C5, amended: for every input string, `normalize` lower-cases it,
removes every occurrence of `"https://"` and then of `"http://"` (not only
a leading scheme, and removal can splice surrounding text together), and
strips leading and trailing `'/'` characters — its output is invariant
under a further slash-strip — and it does not trim surrounding whitespace;
in particular `normalize "HTTPS://Example.com/" = "example.com"`. -/
theorem C5_amended_thm :
    (∀ s : String,
        stripChar (fun c => c == '/') (normalize s).toList = (normalize s).toList)
    ∧ normalize "HTTPS://Example.com/" = "example.com"
    ∧ normalize "ABC.xyz" = "abc.xyz"
    ∧ normalize "a.com/https://b" = "a.com/b"
    ∧ normalize "//example.com//" = "example.com"
    ∧ normalize " a.com " = " a.com " := by
  refine ⟨?_, by decide, by decide, by decide, by decide, by decide⟩
  intro s
  exact stripChar_idem _ _

/-- Claim C6: with a chat configured and a non-empty watchlist, a cycle
checks exactly the stored domains in stored (sorted-on-save) order and
sends exactly one outbound message: the header followed by one formatted
line per domain in that same order, joined by newlines.  Each line is a
function of that domain's own outcome alone, so one domain's failure
never affects another domain's line. -/
theorem C6_thm (token : Option String) (oracle : String → RemoteOutcome)
    (data : Record) (cid : Int) (hc : data.chat_id = some cid) (h0 : cid ≠ 0)
    (hne : data.domains ≠ []) :
    periodic_check token oracle data =
      { sent := [(cid, String.intercalate "\n" (reportHeader ::
          data.domains.map (fun d =>
            format_status_message (check_domain_status token d (oracle d)).1 d)))],
        checked := data.domains } := by
  have hE : data.domains.isEmpty = false := List.isEmpty_eq_false.mpr hne
  simp [periodic_check, hc, h0, hE]

/-- Witness for C6: on the watchlist `["a.com", "b.com"]` where `a.com`
times out and `b.com` answers `blocked`, the cycle checks both domains in
order and sends one message whose report has an error line for `a.com`
followed by a BLOCKED line for `b.com`. -/
theorem C6_witness :
    periodic_check (some "tok") oracleAB watchAB =
      { sent := [(5, "🔔 **Domain Status Report**\n\n❌ **Error checking `a.com`:**\nHTTPSConnectionPool: Read timed out.\n🔴 `https://b.com/` is *BLOCKED* (IP: `1.2.3.4`)")],
        checked := ["a.com", "b.com"] } :=
  (C6_thm (some "tok") oracleAB watchAB 5 rfl (by decide) (by decide)).trans (by decide)

/-- Claim C7: a cycle with no configured target chat is a no-op — no
outbound message and no checker invocation (the source also logs a
warning, a side effect outside this model) — and a cycle with a configured
chat but an empty domain list sends exactly the one "watchlist empty"
notice and invokes the checker zero times. -/
theorem C7_thm (token : Option String) (oracle : String → RemoteOutcome)
    (data : Record) :
    (data.chat_id = none →
        periodic_check token oracle data = { sent := [], checked := [] })
    ∧ (∀ cid : Int, data.chat_id = some cid → cid ≠ 0 → data.domains = [] →
        periodic_check token oracle data
          = { sent := [(cid, emptyWatchlistMsg)], checked := [] }) := by
  constructor
  · intro h; simp [periodic_check, h]
  · intro cid hc h0 hd
    simp [periodic_check, hc, h0, hd]

/-- Witness for C7: no target configured gives a silent no-op; a
configured chat with an empty watchlist gives exactly the empty-watchlist
notice and zero checks. -/
theorem C7_witness :
    periodic_check (some "tok") (fun _ => .noResponse "timed out")
        { chat_id := none, domains := ["a.com"] } = { sent := [], checked := [] }
    ∧ periodic_check (some "tok") (fun _ => .noResponse "timed out")
        { chat_id := some 5, domains := [] }
      = { sent := [(5, emptyWatchlistMsg)], checked := [] } :=
  ⟨(C7_thm _ _ _).1 rfl, (C7_thm _ _ _).2 5 rfl (by decide) rfl⟩

/-- Claim C8: `/add` is idempotent to retransmission — re-running the same
add command leaves the stored domain list unchanged (same list, hence same
size and contents) and the reply reports the domains as already present
(the skipped line, with no added line). -/
theorem C8_thm (text : String) (stored : Record)
    (hne : get_domains_from_message text ≠ []) :
    (add_command text (add_command text stored).stored).stored
        = (add_command text stored).stored
    ∧ (add_command text (add_command text stored).stored).reply
        = String.intercalate "\n" [addReportHeader,
            skippedLine (sortedDedup (get_domains_from_message text)).length] := by
  have hdsE : (get_domains_from_message text).isEmpty = false :=
    List.isEmpty_eq_false.mpr hne
  set R := (add_command text stored).stored with hR
  have hmem : ∀ d ∈ get_domains_from_message text, d ∈ R.domains :=
    fun d hd => mem_add_command_stored hd
  have hfilt_new : (get_domains_from_message text).filter
      (fun d => !decide (d ∈ R.domains)) = [] := by
    rw [List.filter_eq_nil_iff]
    intro a ha
    simp [hmem a ha]
  have hfilt_already : (get_domains_from_message text).filter
      (fun d => decide (d ∈ R.domains)) = get_domains_from_message text := by
    rw [List.filter_eq_self]
    intro a ha
    simp [hmem a ha]
  have halready_ne : (sortedDedup (get_domains_from_message text)).isEmpty = false := by
    rw [List.isEmpty_eq_false]
    intro h
    exact hne (sortedDedup_eq_nil.mp h)
  have hsd : sortedDedup ([] : List String) = [] := rfl
  constructor
  · simp only [add_command, hdsE, Bool.false_eq_true, if_false, hfilt_new]
    simp [hsd]
  · simp only [add_command, hdsE, Bool.false_eq_true, if_false, hfilt_new, hfilt_already,
      halready_ne]
    simp [hsd, halready_ne]

/-- Witness for C8: adding `b.com a.com` twice to an empty store — the
second run changes nothing and replies with the skipped line for the two
distinct domains. -/
theorem C8_witness :
    (add_command "/add b.com a.com" (add_command "/add b.com a.com" defaultRecord).stored).stored
        = (add_command "/add b.com a.com" defaultRecord).stored
    ∧ (add_command "/add b.com a.com" (add_command "/add b.com a.com" defaultRecord).stored).reply
        = String.intercalate "\n" [addReportHeader, skippedLine 2] :=
  ⟨(C8_thm "/add b.com a.com" defaultRecord (by decide)).1,
    ((C8_thm "/add b.com a.com" defaultRecord (by decide)).2).trans (by decide)⟩

/-- Claim C9: for every record passed to `save_data` — in-memory lists
with duplicates or out of order included — the persisted `domains` list is
sorted in lexicographic code-point order, duplicate-free, and holds
exactly the elements of the in-memory list. -/
theorem C9_thm (r : Record) :
    List.Sorted strLe (save_data r).domains
    ∧ (save_data r).domains.Nodup
    ∧ ∀ d : String, d ∈ (save_data r).domains ↔ d ∈ r.domains := by
  refine ⟨sorted_sortedDedup _, nodup_sortedDedup _, fun d => mem_sortedDedup⟩

/-- Claim C10: the token `"///"` passes the `/add` filter (the filter
tests the raw token's whitespace-strip, which is non-empty) while
normalization collapses it to the empty string, so `""` is added to the
watchlist, persisted, and checked by a subsequent cycle. -/
theorem C10_thm :
    get_domains_from_message "/add ///" = [""]
    ∧ (pyStripWs "///").isEmpty = false
    ∧ normalize "///" = ""
    ∧ (add_command "/add ///" { chat_id := some 5, domains := [] }).stored.domains = [""]
    ∧ (periodic_check (some "tok") (fun _ => .noResponse "timed out")
        (add_command "/add ///" { chat_id := some 5, domains := [] }).stored).checked = [""]
    ∧ (periodic_check (some "tok") (fun _ => .noResponse "timed out")
        (add_command "/add ///" { chat_id := some 5, domains := [] }).stored).sent.length = 1 := by
  decide

end DomainBot
